import Mathlib

/-!
A verification development for the QuaLiKiz job-lifecycle manager
(`tools/qualikiz/qualikizrun.py`): a shallow embedding of its data model and
operations, plus theorems settling the specified properties.

Modelling conventions:
* Paths are strings; the `os.path` helpers used by the code (`isabs`, `join`,
  `basename`) are reimplemented over `String`/`List Char` following the POSIX
  semantics that the Python standard library implements.
* Filesystem state and external processes are abstracted into explicit
  environment records (`FsEnv`, `FS`, `RunJobEnv`) holding exactly the
  observations the code makes (does a directory exist, what did a subprocess
  print, what did the operator type at a prompt).
* Stateful effects (files written, links created, warnings emitted, dots
  printed, the Python return value) are returned as explicit data so that
  theorems can speak about them.
* A raised Python exception is an `Except.error`; a function that returns
  normally produces `Except.ok`.
-/

deriving instance DecidableEq for Except

namespace QLK

/-! ## POSIX path helpers (`os.path`) -/

/-- Python `s.startswith(pre)`, modelled on the character list. -/
def strStartsWith (s pre : String) : Bool :=
  s.data.take pre.data.length == pre.data

/-- Python `s.endswith(suf)`, modelled on the character list. -/
def strEndsWith (s suf : String) : Bool :=
  s.data.drop (s.data.length - suf.data.length) == suf.data

/-- Model of `os.path.isabs` on POSIX: the path starts with the separator. -/
def os_path_isabs (s : String) : Bool :=
  strStartsWith s "/"

/-- Model of `os.path.join(a, b)` on POSIX for two components: an absolute second
component replaces the first; otherwise the separator is inserted unless the
first component is empty or already ends with it. -/
def os_path_join (a b : String) : String :=
  if strStartsWith b "/" then b
  else if a = "" || strEndsWith a "/" then a ++ b
  else a ++ "/" ++ b

/-- Model of `os.path.basename` on POSIX: everything after the last separator. -/
def os_path_basename (p : String) : String :=
  String.mk ((p.data.reverse.takeWhile (fun c => c ≠ '/')).reverse)

/-- Note: `os.path.abspath` normalizes a path against the working directory.  Every
path this code passes to it is already absolute, and no claim depends on
syntactic normalization, so the embedding takes it as the identity there. -/
def os_path_abspath (p : String) : String := p

/-! ## Python string helpers used by `run_job` -/

/-- Accumulator for `pySplit`: `cur` holds the current token reversed. -/
def pySplitAux : List Char → List Char → List String
  | [], cur => if cur = [] then [] else [String.mk cur.reverse]
  | c :: rest, cur =>
    if c.isWhitespace then
      (if cur = [] then [] else [String.mk cur.reverse]) ++ pySplitAux rest []
    else
      pySplitAux rest (c :: cur)

/-- Python `s.split()` with no argument: split on runs of whitespace,
discarding empty tokens. -/
def pySplit (s : String) : List String :=
  pySplitAux s.data []

/-- Python `s.strip()`: remove whitespace from both ends. -/
def pyStrip (s : String) : String :=
  String.mk (((s.data.dropWhile Char.isWhitespace).reverse.dropWhile
    Char.isWhitespace).reverse)

/-! ## Exceptions -/

/-- Exception `PathException(path)`: the constructor builds the message from the
offending parameter name. -/
structure PathException where
  message : String
deriving DecidableEq, Repr

/-- The message built by `PathException.__init__`. -/
def PathException.ofParam (path : String) : PathException :=
  ⟨path ++ " must be an absolute path or bad things will happen!"⟩

/-- The Python exceptions that the embedded fragments can raise. -/
inductive PyError
  | pathExc (e : PathException)
  | fileNotFound (path : String)
  | indexError
deriving DecidableEq, Repr

/-! ## `EmptyJob` -/

/-- An empty QuaLiKiz job.  `batch` is the batch-script value object, modelled
by the content it renders to file.  `binary_path` is stored absolute by the
constructor; the embedding carries it as a plain field. -/
structure EmptyJob where
  binary_path : String
  parameters_script : String
  name : String
  batch : String
deriving DecidableEq, Repr

/-- Class constant `EmptyJob.jobdatafile`. -/
def EmptyJob.jobdatafile : String := "jobdata.pkl"

/-- Class constant `EmptyJob.metadatafile`. -/
def EmptyJob.metadatafile : String := "metadata.csv"

/-- Class constant `Run.scriptname`, the fixed batch-script file name. -/
def Run.scriptname : String := "edison.sbatch"

/-- Model of `pickle.dump(self, file_)` for an `EmptyJob`, modelled as a faithful
serialization of its fields (the pickle module is an external collaborator;
the spec requires only that a reloaded snapshot reproduces the job). -/
def pickle_dump (j : EmptyJob) : List String :=
  [j.binary_path, j.parameters_script, j.name, j.batch]

/-- Model of `pickle.load` for an `EmptyJob` snapshot: inverse of `pickle_dump`. -/
def pickle_load : List String → Option EmptyJob
  | [b, p, n, ba] => some ⟨b, p, n, ba⟩
  | _ => none

/-- The filesystem observations a single `EmptyJob.to_file` call makes. -/
structure FsEnv where
  /-- Value of `os.path.isdir(runsdir)` -/
  runsdirIsDir : Bool
  /-- whether `os.mkdir(path)` raises `FileExistsError` for this job's dir -/
  jobPathExists : Bool
  /-- what `input(...)` returns at the overwrite prompt -/
  resp : String
  /-- Value of `os.path.exists(self.binary_path)` -/
  binaryExists : Bool
  /-- whether `qualikizdir/parameters_template.py` can be opened -/
  templateExists : Bool
  /-- content of that template (`readlines` then `writelines` preserves it) -/
  templateContent : String
deriving DecidableEq, Repr

/-- The on-disk layout a successful `EmptyJob.to_file` produces inside the job
directory (symbolic links, rendered scripts, optional snapshot).  The
`output/primitive` and `debug` subdirectories are created unconditionally and
carry no data, so they are not recorded. -/
structure JobDirLayout where
  /-- Value of `abspath(join(runsdir, self.name))` -/
  path : String
  /-- link name `basename(self.binary_path)` -/
  binaryLinkName : String
  /-- link target: `self.binary_path` -/
  binaryLinkTarget : String
  /-- target of the link named `qualikiz` -/
  qualikizLinkTarget : String
  /-- content rendered by `self.batch.to_file` at `path/edison.sbatch` -/
  batchScript : String
  /-- content written to `path/parameters.py` -/
  parametersContent : String
  /-- serialized snapshot at `path/jobdata.pkl`, when `metapickle` -/
  jobdata : Option (List String)
deriving DecidableEq, Repr

/-- Outcome of `EmptyJob.to_file`: the source returns `1` after printing
`aborting` (the skip sentinel) or falls off the end after writing the layout. -/
inductive ToFileResult
  | skipped
  | written (layout : JobDirLayout)
deriving DecidableEq, Repr

/-- Observable effects of one `EmptyJob.to_file` call. -/
structure ToFileOut where
  /-- the interactive overwrite prompt was shown -/
  prompted : Bool
  /-- Whether `shutil.rmtree` ran on a pre-existing job directory -/
  removedTree : Bool
  /-- the missing-binary warning was emitted -/
  warnedBinary : Bool
  result : ToFileResult
deriving DecidableEq, Repr

/-- The part of `EmptyJob.to_file` below the `os.mkdir(path)` try/except:
warn about a missing binary, create links and subdirectories, render the
batch script, write `parameters.py` (from the template when the job's script
is empty), and optionally dump the snapshot. -/
def EmptyJob.to_file_body (self : EmptyJob) (env : FsEnv) (qualikizdir path : String)
    (prompted removedTree metapickle : Bool) : Except PyError ToFileOut :=
  let warnedBinary := !env.binaryExists
  if self.parameters_script = "" && !env.templateExists then
    .error (.fileNotFound (os_path_join qualikizdir "parameters_template.py"))
  else
    let parameters_script :=
      if self.parameters_script = "" then env.templateContent else self.parameters_script
    .ok ⟨prompted, removedTree, warnedBinary,
      .written
        { path := path
          binaryLinkName := os_path_basename self.binary_path
          binaryLinkTarget := self.binary_path
          qualikizLinkTarget := qualikizdir
          batchScript := self.batch
          parametersContent := parameters_script
          jobdata := if metapickle then some (pickle_dump self) else none }⟩

/-- Method `EmptyJob.to_file(runsdir, qualikizdir, overwrite, metapickle)`: validate
the directories, attempt `os.mkdir(path)`; on `FileExistsError`, prompt when
`overwrite` is false (affirmative answers: empty, `Y`, `y`), then either
remove the old tree and write, or print `aborting` and return the sentinel. -/
def EmptyJob.to_file (self : EmptyJob) (env : FsEnv) (runsdir qualikizdir : String)
    (overwrite : Bool := false) (metapickle : Bool := true) : Except PyError ToFileOut :=
  if ¬ os_path_isabs qualikizdir then .error (.pathExc (.ofParam "qualikizdir"))
  else if ¬ os_path_isabs runsdir then .error (.pathExc (.ofParam "runsdir"))
  else
    let path := os_path_abspath (os_path_join runsdir self.name)
    if env.jobPathExists then
      let prompted := !overwrite
      let overwrite2 :=
        overwrite || (env.resp = "" || env.resp = "Y" || env.resp = "y")
      if overwrite2 then
        EmptyJob.to_file_body self env qualikizdir path prompted true metapickle
      else
        .ok ⟨prompted, false, false, .skipped⟩
    else
      EmptyJob.to_file_body self env qualikizdir path false false metapickle

/-! ## `Run` -/

/-- A collection of QuaLiKiz jobs: the ordered name-to-job mapping plus the
three configured directories. -/
structure Run where
  jobs : List (String × EmptyJob)
  rootdir : String
  qualikizdir : String
  runsdir : String
deriving DecidableEq, Repr

/-- Constructor `Run.__init__(rootdir, qualikizdir="", runsdir="")`: reject a relative
`rootdir`, derive defaults for the other two when not supplied, then reject
either of them if relative. -/
def Run.init (rootdir : String) (qualikizdir : String := "") (runsdir : String := "") :
    Except PathException Run :=
  if os_path_isabs rootdir then
    let q := if qualikizdir = "" then os_path_join rootdir "tools/qualikiz" else qualikizdir
    let rd := if runsdir = "" then os_path_join rootdir "runs" else runsdir
    if ¬ os_path_isabs q then .error (.ofParam "qualikizdir")
    else if ¬ os_path_isabs rd then .error (.ofParam "runsdir")
    else .ok ⟨[], rootdir, q, rd⟩
  else .error (.ofParam "rootdir")

/-- The loop body of `Run.to_file`: call `job.to_file` for each entry in
order.  The first component is the trace of job names whose materialization
was attempted.  The source has no try/except around the call, so a raised
exception propagates and ends the loop at the failing entry.  The same `env`
is threaded to every call (it abstracts the filesystem each call observes). -/
def Run.to_file_go (env : FsEnv) (runsdir qualikizdir : String) (overwrite : Bool) :
    List (String × EmptyJob) → List String × Except PyError Unit
  | [] => ([], .ok ())
  | (name, job) :: rest =>
    match job.to_file env runsdir qualikizdir overwrite true with
    | .ok _ =>
      let r := Run.to_file_go env runsdir qualikizdir overwrite rest
      (name :: r.1, r.2)
    | .error e => ([name], .error e)

/-- Method `Run.to_file(overwrite=False)`: writes all job folders to file. -/
def Run.to_file (run : Run) (env : FsEnv) (overwrite : Bool := false) :
    List String × Except PyError Unit :=
  Run.to_file_go env run.runsdir run.qualikizdir overwrite run.jobs

/-! ## `recursive_function` (TreeWalker) -/

/-- The directory structure `recursive_function` walks: what `os.listdir`
returns for a path, and what `os.path.isdir` answers. -/
structure FS where
  listdir : String → List String
  isdir : String → Bool

/-- Events the walk emits, in order: an application of the operation to a
path, a warning (`warnings.warn`), or a progress dot (`print('.')`). -/
inductive WalkEvent
  | apply (p : String)
  | warned
  | dot
deriving DecidableEq, Repr

/-- The `try: results.append(function(p)) except Exception: warn(e); warn(...)`
block: one application event, plus two warnings and no result on failure. -/
def tryCall {ε α : Type} (function : String → Except ε α) (p : String) :
    List α × List WalkEvent :=
  match function p with
  | .ok r => ([r], [.apply p])
  | .error _ => ([], [.apply p, .warned, .warned])

/-- The `for folder in os.listdir(path)` loop of `recursive_function`: visit
each immediate entry, and for those that are directories directly containing
`Run.scriptname`, run the guarded call followed by a dot when `dotprint`. -/
def walkChildren {ε α : Type} (fs : FS) (path : String)
    (function : String → Except ε α) (dotprint : Bool) :
    List String → List α × List WalkEvent
  | [] => ([], [])
  | folder :: rest =>
    let job_folder := os_path_join path folder
    let here :=
      if fs.isdir job_folder then
        if (fs.listdir job_folder).contains Run.scriptname then
          let r := tryCall function job_folder
          (r.1, r.2 ++ (if dotprint then [WalkEvent.dot] else []))
        else ([], [])
      else ([], [])
    let later := walkChildren fs path function dotprint rest
    (here.1 ++ later.1, here.2 ++ later.2)

/-- Function `recursive_function(path, function, dotprint=False)`: if `path` itself
directly contains `Run.scriptname`, run the guarded call on `path`; otherwise
run the child loop over `os.listdir(path)`.  Returns the collected results
together with the ordered event trace. -/
def recursive_function {ε α : Type} (fs : FS) (path : String)
    (function : String → Except ε α) (dotprint : Bool := false) :
    List α × List WalkEvent :=
  if (fs.listdir path).contains Run.scriptname then
    tryCall function path
  else
    walkChildren fs path function dotprint (fs.listdir path)

/-- The paths the operation was applied to, in order, read off the trace. -/
def appliedPaths (evs : List WalkEvent) : List String :=
  evs.filterMap fun e =>
    match e with
    | .apply p => some p
    | _ => none

/-- Number of progress dots in the trace. -/
def numDots (evs : List WalkEvent) : Nat :=
  (evs.filter fun e => e == WalkEvent.dot).length

/-- An entry of `path` is a job-directory candidate iff it is a directory
that directly contains `Run.scriptname`. -/
def isJobChild (fs : FS) (path folder : String) : Bool :=
  fs.isdir (os_path_join path folder) &&
    (fs.listdir (os_path_join path folder)).contains Run.scriptname

/-- The immediate subdirectories of `path` that are job directories, as full
paths, in enumeration order. -/
def jobCandidates (fs : FS) (path : String) : List String :=
  ((fs.listdir path).filter (isJobChild fs path)).map fun folder =>
    os_path_join path folder

/-! ## `run_job` (SubmissionRunner) -/

/-- The external observations one `run_job` call makes. -/
structure RunJobEnv where
  /-- Value of `os.path.exists(job_folder/input/p1.bin)` -/
  inputBinaryExists : Bool
  /-- stdout of `git describe --tags` -/
  gitDescribeOutput : String
  /-- stdout of the `sbatch` submit command -/
  sbatchOutput : String
  /-- Value of `str(datetime.datetime.now())` -/
  now : String
  /-- rows of a pre-existing `metadata.csv`, if any -/
  priorMetadata : Option (List (List String))
deriving DecidableEq, Repr

/-- Observable effects of one `run_job` call. -/
structure RunJobOut where
  /-- the missing-input-binary warning was emitted -/
  warnedInput : Bool
  /-- rows of `job_folder/metadata.csv` after the call -/
  metadataFile : List (List String)
  /-- lines printed to stdout -/
  printed : List String
  /-- the Python return value of `run_job` -/
  returned : Option String
deriving DecidableEq, Repr

/-- Semantics of `open(..., 'w')`, which truncates: the file's new content ignores the prior. -/
def openWriteMode {α : Type} (prior : Option α) (new : α) : α := new

/-- Function `run_job(job_folder)`: warn when the input binary is missing, stamp the
version from `git describe --tags` (stripped), submit via `sbatch`, take the
last whitespace token of its output as the job number
(`output.split()[-1]` raises `IndexError` on empty output), rewrite
`metadata.csv` with the three rows, and print the job number.  The function
has no return statement, so its Python result is `None`. -/
def run_job (env : RunJobEnv) (job_folder : String) : Except PyError RunJobOut :=
  let warnedInput := !env.inputBinaryExists
  let qualikiz_version := pyStrip env.gitDescribeOutput
  match (pySplit env.sbatchOutput).getLast? with
  | none => .error .indexError
  | some jobnumber =>
    .ok { warnedInput := warnedInput
          metadataFile := openWriteMode env.priorMetadata
            [["jobnumber", jobnumber],
             ["submittime", env.now],
             ["qualikiz_version", qualikiz_version]]
          printed := [jobnumber]
          returned := none }

/-! ## Lemmas about the walk -/

theorem appliedPaths_append (e1 e2 : List WalkEvent) :
    appliedPaths (e1 ++ e2) = appliedPaths e1 ++ appliedPaths e2 :=
  List.filterMap_append e1 e2 _

theorem tryCall_applied {ε α : Type} (f : String → Except ε α) (p : String) :
    appliedPaths (tryCall f p).2 = [p] := by
  cases h : f p <;> simp [tryCall, h, appliedPaths]

theorem tryCall_results {ε α : Type} (f : String → Except ε α) (p : String) :
    (tryCall f p).1 = (f p).toOption.toList := by
  cases h : f p <;> simp [tryCall, h, Except.toOption]

theorem appliedPaths_dotlist (b : Bool) :
    appliedPaths (if b then [WalkEvent.dot] else []) = [] := by
  cases b <;> simp [appliedPaths]

theorem walkChildren_applied {ε α : Type} (fs : FS) (path : String)
    (f : String → Except ε α) (dp : Bool) (l : List String) :
    appliedPaths (walkChildren fs path f dp l).2 =
      (l.filter (isJobChild fs path)).map fun folder => os_path_join path folder := by
  induction l with
  | nil => rfl
  | cons folder rest ih =>
    by_cases h1 : fs.isdir (os_path_join path folder) = true
    · by_cases h2 : Run.scriptname ∈ fs.listdir (os_path_join path folder)
      · simp [walkChildren, isJobChild, h1, h2, List.elem_iff, appliedPaths_append,
          appliedPaths_dotlist, tryCall_applied, ih, List.filter_cons]
      · simp [walkChildren, isJobChild, h1, h2, List.elem_iff, appliedPaths_append,
          ih, List.filter_cons]
    · simp [walkChildren, isJobChild, h1, appliedPaths_append, ih, List.filter_cons]

theorem walkChildren_results {ε α : Type} (fs : FS) (path : String)
    (f : String → Except ε α) (dp : Bool) (l : List String) :
    (walkChildren fs path f dp l).1 =
      ((l.filter (isJobChild fs path)).map fun folder => os_path_join path folder).filterMap
        fun p => (f p).toOption := by
  induction l with
  | nil => rfl
  | cons folder rest ih =>
    by_cases h1 : fs.isdir (os_path_join path folder) = true
    · by_cases h2 : Run.scriptname ∈ fs.listdir (os_path_join path folder)
      · cases h : f (os_path_join path folder) <;>
          simp [walkChildren, isJobChild, h1, h2, List.elem_iff, ih, List.filter_cons,
            tryCall, h, Except.toOption]
      · simp [walkChildren, isJobChild, h1, h2, List.elem_iff, ih, List.filter_cons]
    · simp [walkChildren, isJobChild, h1, ih, List.filter_cons]

theorem walkChildren_events {ε α : Type} (fs : FS) (path : String)
    (f : String → Except ε α) (l : List String) :
    (walkChildren fs path f true l).2 =
      ((l.filter (isJobChild fs path)).map fun folder => os_path_join path folder).flatMap
        fun p => (tryCall f p).2 ++ [WalkEvent.dot] := by
  induction l with
  | nil => rfl
  | cons folder rest ih =>
    by_cases h1 : fs.isdir (os_path_join path folder) = true
    · by_cases h2 : Run.scriptname ∈ fs.listdir (os_path_join path folder)
      · simp [walkChildren, isJobChild, h1, h2, List.elem_iff, ih, List.filter_cons]
      · simp [walkChildren, isJobChild, h1, h2, List.elem_iff, ih, List.filter_cons]
    · simp [walkChildren, isJobChild, h1, ih, List.filter_cons]

theorem numDots_tryCall {ε α : Type} (f : String → Except ε α) (p : String) :
    numDots (tryCall f p).2 = 0 := by
  cases h : f p <;> simp [tryCall, h, numDots]

/-- Number of warning events in the trace (`warnings.warn` calls). -/
def numWarns (evs : List WalkEvent) : Nat :=
  (evs.filter fun e => e == WalkEvent.warned).length

theorem numWarns_append (e1 e2 : List WalkEvent) :
    numWarns (e1 ++ e2) = numWarns e1 + numWarns e2 := by
  simp [numWarns, List.filter_append]

theorem numWarns_dotlist (b : Bool) :
    numWarns (if b then [WalkEvent.dot] else []) = 0 := by
  cases b <;> simp [numWarns]

theorem numWarns_tryCall {ε α : Type} (f : String → Except ε α) (p : String) :
    numWarns (tryCall f p).2 = if (f p).toOption.isSome then 0 else 2 := by
  cases h : f p <;> simp [tryCall, h, numWarns, Except.toOption]

theorem walkChildren_cons_job {ε α : Type} (fs : FS) (path : String)
    (f : String → Except ε α) (dp : Bool) (folder : String) (rest : List String)
    (h : isJobChild fs path folder = true) :
    walkChildren fs path f dp (folder :: rest) =
      ((tryCall f (os_path_join path folder)).1 ++
          (walkChildren fs path f dp rest).1,
        ((tryCall f (os_path_join path folder)).2 ++
            (if dp then [WalkEvent.dot] else [])) ++
          (walkChildren fs path f dp rest).2) := by
  unfold isJobChild at h
  rw [Bool.and_eq_true] at h
  have hm : Run.scriptname ∈ fs.listdir (os_path_join path folder) :=
    List.elem_iff.mp h.2
  simp [walkChildren, h.1, hm]

theorem walkChildren_cons_nonjob {ε α : Type} (fs : FS) (path : String)
    (f : String → Except ε α) (dp : Bool) (folder : String) (rest : List String)
    (h : isJobChild fs path folder = false) :
    walkChildren fs path f dp (folder :: rest) = walkChildren fs path f dp rest := by
  unfold isJobChild at h
  cases h1 : fs.isdir (os_path_join path folder) with
  | false => simp [walkChildren, h1]
  | true =>
    have h2 : ((fs.listdir (os_path_join path folder)).contains Run.scriptname)
        = false := by
      rw [h1] at h
      simpa using h
    have hm : Run.scriptname ∉ fs.listdir (os_path_join path folder) := by
      intro hmem
      have hcontra := List.elem_iff.mpr hmem
      have h2e : List.elem Run.scriptname (fs.listdir (os_path_join path folder))
          = false := h2
      rw [h2e] at hcontra
      exact Bool.noConfusion hcontra
    simp [walkChildren, h1, hm]

theorem walkChildren_warns {ε α : Type} (fs : FS) (path : String)
    (f : String → Except ε α) (dp : Bool) (l : List String) :
    numWarns (walkChildren fs path f dp l).2 =
      2 * (((l.filter (isJobChild fs path)).map fun folder =>
          os_path_join path folder).filter
        fun p => !(f p).toOption.isSome).length := by
  induction l with
  | nil => rfl
  | cons folder rest ih =>
    by_cases hc : isJobChild fs path folder = true
    · rw [walkChildren_cons_job fs path f dp folder rest hc]
      simp only [numWarns_append, numWarns_dotlist, numWarns_tryCall, ih,
        List.filter_cons, hc, if_true, List.map_cons]
      by_cases hs : ((f (os_path_join path folder)).toOption.isSome) = true
      · simp [hs]
      · have hs0 : ((f (os_path_join path folder)).toOption.isSome) = false := by
          simpa using hs
        simp [hs0]
        omega
    · rw [walkChildren_cons_nonjob fs path f dp folder rest (by simpa using hc)]
      simp [List.filter_cons, hc, ih]

/-! ## Claim C1 -/

/-- C1: `recursive_function` applies the operation exactly once to `path`
itself when `path` directly contains `edison.sbatch` (visiting no
subdirectory), and otherwise exactly once to each immediate subdirectory
that directly contains `edison.sbatch` and to nothing else — in
particular never to anything nested deeper. -/
theorem recursive_function_applies_to_job_dirs_only {ε α : Type} (fs : FS)
    (path : String) (function : String → Except ε α) (dotprint : Bool) :
    appliedPaths (recursive_function fs path function dotprint).2 =
      if (fs.listdir path).contains Run.scriptname then [path]
      else jobCandidates fs path := by
  by_cases h : ((fs.listdir path).contains Run.scriptname) = true
  · simp only [recursive_function, h, if_true]
    exact tryCall_applied function path
  · simp only [recursive_function, h, if_false, Bool.not_eq_true] at h ⊢
    simp only [h, Bool.false_eq_true, if_false, jobCandidates]
    exact walkChildren_applied fs path function dotprint (fs.listdir path)

/-! ## Claim C6 -/

/-- C6: exceptions raised by the operation are caught inside the walk.  The
walk still applies the operation to every candidate directory, warns for each
failure, and returns exactly the successful results in order; since the
embedded walk returns a plain value (not an `Except`), no exception escapes. -/
theorem recursive_function_isolates_operation_failures {ε α : Type} (fs : FS)
    (path : String) (function : String → Except ε α) (dotprint : Bool) :
    appliedPaths (recursive_function fs path function dotprint).2 =
      (if (fs.listdir path).contains Run.scriptname then [path]
        else jobCandidates fs path) ∧
    (recursive_function fs path function dotprint).1 =
      (if (fs.listdir path).contains Run.scriptname then [path]
        else jobCandidates fs path).filterMap (fun p => (function p).toOption) ∧
    numWarns (recursive_function fs path function dotprint).2 =
      2 * ((if (fs.listdir path).contains Run.scriptname then [path]
          else jobCandidates fs path).filter
        fun p => !(function p).toOption.isSome).length := by
  refine ⟨?_, ?_, ?_⟩
  · by_cases h : ((fs.listdir path).contains Run.scriptname) = true
    · simp only [recursive_function, h, if_true]
      exact tryCall_applied function path
    · simp only [recursive_function, h, Bool.not_eq_true] at h ⊢
      simp only [h, Bool.false_eq_true, if_false, jobCandidates]
      exact walkChildren_applied fs path function dotprint (fs.listdir path)
  · by_cases h : ((fs.listdir path).contains Run.scriptname) = true
    · simp only [recursive_function, h, if_true]
      cases hf : function path <;>
        simp [tryCall, hf, Except.toOption]
    · simp only [recursive_function, h, Bool.not_eq_true] at h ⊢
      simp only [h, Bool.false_eq_true, if_false, jobCandidates]
      exact walkChildren_results fs path function dotprint (fs.listdir path)
  · by_cases h : ((fs.listdir path).contains Run.scriptname) = true
    · simp only [recursive_function, h, if_true]
      cases hf : function path <;>
        simp [tryCall, hf, numWarns, Except.toOption]
    · simp only [recursive_function, h, Bool.not_eq_true] at h ⊢
      simp only [h, Bool.false_eq_true, if_false, jobCandidates]
      exact walkChildren_warns fs path function dotprint (fs.listdir path)

/-! ## Claim C10 -/

/-- C10: with `dotprint` enabled, progress dots appear only in the
immediate-children branch — the trace there is, per candidate child, the
guarded application events (also when the operation failed) followed by one
dot — while a root that is itself a job directory gets the application but
never a dot. -/
theorem recursive_function_dot_only_for_children {ε α : Type} (fs : FS)
    (path : String) (function : String → Except ε α) :
    (((fs.listdir path).contains Run.scriptname) = true →
        numDots (recursive_function fs path function true).2 = 0 ∧
        appliedPaths (recursive_function fs path function true).2 = [path]) ∧
    (((fs.listdir path).contains Run.scriptname) = false →
        (recursive_function fs path function true).2 =
          (jobCandidates fs path).flatMap fun p =>
            (tryCall function p).2 ++ [WalkEvent.dot]) := by
  constructor
  · intro h
    simp only [recursive_function, h, if_true]
    exact ⟨numDots_tryCall function path, tryCall_applied function path⟩
  · intro h
    simp only [recursive_function, h, Bool.false_eq_true, if_false, jobCandidates,
      List.flatMap]
    exact walkChildren_events fs path function (fs.listdir path)

/-- A one-job-directory root: it directly contains the script file. -/
def cFsRoot : FS :=
  { listdir := fun _ => ["edison.sbatch", "parameters.py"]
    isdir := fun _ => true }

/-- A root with three entries: `a` and `b` are job directories, `c` is a
directory without the script file. -/
def cFsTree : FS :=
  { listdir := fun p =>
      if p = "/runs" then ["a", "b", "c"]
      else if p = "/runs/a" then ["edison.sbatch"]
      else if p = "/runs/b" then ["edison.sbatch", "stuff"]
      else if p = "/runs/c" then ["notes.txt"]
      else []
    isdir := fun _ => true }

/-- A concrete operation that fails on `/runs/b` and succeeds elsewhere. -/
def cWalkOp : String → Except PyError String :=
  fun p => if p = "/runs/b" then Except.error PyError.indexError else Except.ok p

theorem recursive_function_dot_only_for_children_witness :
    (numDots (recursive_function cFsRoot "/runs/a" cWalkOp true).2 = 0 ∧
      appliedPaths (recursive_function cFsRoot "/runs/a" cWalkOp true).2 = ["/runs/a"]) ∧
    (recursive_function cFsTree "/runs" cWalkOp true).2 =
      (jobCandidates cFsTree "/runs").flatMap fun p =>
        (tryCall cWalkOp p).2 ++ [WalkEvent.dot] :=
  ⟨(recursive_function_dot_only_for_children cFsRoot "/runs/a" cWalkOp).1 (by decide),
   (recursive_function_dot_only_for_children cFsTree "/runs" cWalkOp).2 (by decide)⟩

/-! ## Path lemmas for `Run.init` -/

theorem os_path_isabs_append (a b : String) (h : os_path_isabs a = true) :
    os_path_isabs (a ++ b) = true := by
  unfold os_path_isabs strStartsWith at h ⊢
  rw [beq_iff_eq] at h ⊢
  rw [String.data_append]
  simp only [show ("/" : String).data = ['/'] from rfl, List.length_cons,
    List.length_nil] at h ⊢
  cases hd : a.data with
  | nil => rw [hd] at h; simp at h
  | cons c t => rw [hd] at h; simp_all

theorem os_path_isabs_join (a b : String) (h : os_path_isabs a = true) :
    os_path_isabs (os_path_join a b) = true := by
  unfold os_path_join
  by_cases h1 : strStartsWith b "/" = true
  · simp only [h1, if_true]
    exact h1
  · simp only [h1, Bool.false_eq_true, if_false]
    by_cases h2 : (a = "" || strEndsWith a "/") = true
    · simp only [h2, if_true]
      exact os_path_isabs_append a b h
    · simp only [h2, Bool.false_eq_true, if_false]
      exact os_path_isabs_append (a ++ "/") b (os_path_isabs_append a "/" h)

/-! ## Claim C5 -/

/-- C5: `Run.__init__` rejects a relative path argument with a
`PathException` naming the offending parameter (`rootdir` first, then an
explicitly supplied relative `qualikizdir`, then an explicitly supplied
relative `runsdir`), and on absolute arguments succeeds, storing them
unchanged, with `qualikizdir` defaulting to `join(rootdir, "tools/qualikiz")`
and `runsdir` defaulting to `join(rootdir, "runs")` when not supplied. -/
theorem Run_init_validates_paths (rootdir qualikizdir runsdir : String) :
    (os_path_isabs rootdir = false →
        Run.init rootdir qualikizdir runsdir =
          Except.error (PathException.ofParam "rootdir")) ∧
    (os_path_isabs rootdir = true → qualikizdir ≠ "" →
        os_path_isabs qualikizdir = false →
        Run.init rootdir qualikizdir runsdir =
          Except.error (PathException.ofParam "qualikizdir")) ∧
    (os_path_isabs rootdir = true →
        (qualikizdir = "" ∨ os_path_isabs qualikizdir = true) →
        runsdir ≠ "" → os_path_isabs runsdir = false →
        Run.init rootdir qualikizdir runsdir =
          Except.error (PathException.ofParam "runsdir")) ∧
    (os_path_isabs rootdir = true →
        (qualikizdir = "" ∨ os_path_isabs qualikizdir = true) →
        (runsdir = "" ∨ os_path_isabs runsdir = true) →
        Run.init rootdir qualikizdir runsdir =
          Except.ok
            ⟨[], rootdir,
              if qualikizdir = "" then os_path_join rootdir "tools/qualikiz"
              else qualikizdir,
              if runsdir = "" then os_path_join rootdir "runs" else runsdir⟩) := by
  refine ⟨?_, ?_, ?_, ?_⟩
  · intro h
    simp [Run.init, h]
  · intro h hq hqrel
    simp [Run.init, h, hq, hqrel]
  · intro h hq hr hrrel
    rcases hq with hq | hq
    · simp [Run.init, h, hq, hr, hrrel, os_path_isabs_join rootdir "tools/qualikiz" h]
    · by_cases hq0 : qualikizdir = ""
      · simp [Run.init, h, hq0, hr, hrrel, os_path_isabs_join rootdir "tools/qualikiz" h]
      · simp [Run.init, h, hq0, hq, hr, hrrel]
  · intro h hq hr
    have hqabs :
        os_path_isabs
          (if qualikizdir = "" then os_path_join rootdir "tools/qualikiz"
            else qualikizdir) = true := by
      rcases hq with hq | hq
      · simp [hq, os_path_isabs_join rootdir "tools/qualikiz" h]
      · by_cases hq0 : qualikizdir = ""
        · simp [hq0, os_path_isabs_join rootdir "tools/qualikiz" h]
        · simp [hq0, hq]
    have hrabs :
        os_path_isabs
          (if runsdir = "" then os_path_join rootdir "runs" else runsdir) = true := by
      rcases hr with hr | hr
      · simp [hr, os_path_isabs_join rootdir "runs" h]
      · by_cases hr0 : runsdir = ""
        · simp [hr0, os_path_isabs_join rootdir "runs" h]
        · simp [hr0, hr]
    simp [Run.init, h, hqabs, hrabs]

theorem Run_init_validates_paths_witness :
    Run.init "tools" "" "" = Except.error (PathException.ofParam "rootdir") ∧
    Run.init "/root" "tools" "" = Except.error (PathException.ofParam "qualikizdir") ∧
    Run.init "/root" "" "runs" = Except.error (PathException.ofParam "runsdir") ∧
    Run.init "/root" "" "" =
      Except.ok ⟨[], "/root", "/root/tools/qualikiz", "/root/runs"⟩ := by
  refine ⟨?_, ?_, ?_, ?_⟩
  · exact (Run_init_validates_paths "tools" "" "").1 (by decide)
  · exact (Run_init_validates_paths "/root" "tools" "").2.1 (by decide) (by decide)
      (by decide)
  · exact (Run_init_validates_paths "/root" "" "runs").2.2.1 (by decide)
      (Or.inl rfl) (by decide) (by decide)
  · have h := (Run_init_validates_paths "/root" "" "").2.2.2 (by decide)
      (Or.inl rfl) (Or.inl rfl)
    rw [h]
    decide

/-! ## Reduction lemmas for `EmptyJob.to_file` -/

theorem to_file_exists_no_overwrite (self : EmptyJob) (env : FsEnv)
    (runsdir qualikizdir : String) (mp : Bool)
    (hq : os_path_isabs qualikizdir = true) (hr : os_path_isabs runsdir = true)
    (hex : env.jobPathExists = true) :
    EmptyJob.to_file self env runsdir qualikizdir false mp =
      if env.resp = "" || env.resp = "Y" || env.resp = "y" then
        EmptyJob.to_file_body self env qualikizdir
          (os_path_abspath (os_path_join runsdir self.name)) true true mp
      else Except.ok ⟨true, false, false, ToFileResult.skipped⟩ := by
  simp [EmptyJob.to_file, hq, hr, hex]

theorem to_file_fresh (self : EmptyJob) (env : FsEnv)
    (runsdir qualikizdir : String) (ov mp : Bool)
    (hq : os_path_isabs qualikizdir = true) (hr : os_path_isabs runsdir = true)
    (hfresh : env.jobPathExists = false) :
    EmptyJob.to_file self env runsdir qualikizdir ov mp =
      EmptyJob.to_file_body self env qualikizdir
        (os_path_abspath (os_path_join runsdir self.name)) false false mp := by
  simp [EmptyJob.to_file, hq, hr, hfresh]

theorem to_file_body_ok (self : EmptyJob) (env : FsEnv) (qualikizdir path : String)
    (prompted removedTree mp : Bool)
    (hok : self.parameters_script ≠ "" ∨ env.templateExists = true) :
    EmptyJob.to_file_body self env qualikizdir path prompted removedTree mp =
      Except.ok ⟨prompted, removedTree, !env.binaryExists, ToFileResult.written
        { path := path
          binaryLinkName := os_path_basename self.binary_path
          binaryLinkTarget := self.binary_path
          qualikizLinkTarget := qualikizdir
          batchScript := self.batch
          parametersContent :=
            if self.parameters_script = "" then env.templateContent
            else self.parameters_script
          jobdata := if mp then some (pickle_dump self) else none }⟩ := by
  have hcond : (self.parameters_script = "" && !env.templateExists) = false := by
    rcases hok with hok | hok
    · simp [hok]
    · simp [hok]
  simp [EmptyJob.to_file_body, hcond]

/-! ## Claim C4 -/

/-- C4: materializing into an existing target with `overwrite=false` treats
the interactive response as affirmative exactly when it is the empty string,
`Y`, or `y` (then the pre-existing tree is removed and the layout written,
unless a later step raises); for every other response the job's
materialization is aborted with the `Skipped` sentinel, no error is raised,
and the pre-existing directory is left untouched (no removal, no layout). -/
theorem to_file_decline_skips (self : EmptyJob) (env : FsEnv)
    (runsdir qualikizdir : String) (mp : Bool)
    (hq : os_path_isabs qualikizdir = true) (hr : os_path_isabs runsdir = true)
    (hex : env.jobPathExists = true) :
    ((env.resp = "" ∨ env.resp = "Y" ∨ env.resp = "y") →
        (EmptyJob.to_file self env runsdir qualikizdir false mp =
            Except.error (PyError.fileNotFound
              (os_path_join qualikizdir "parameters_template.py")) ∨
          ∃ layout, EmptyJob.to_file self env runsdir qualikizdir false mp =
            Except.ok ⟨true, true, !env.binaryExists,
              ToFileResult.written layout⟩)) ∧
    (¬(env.resp = "" ∨ env.resp = "Y" ∨ env.resp = "y") →
        EmptyJob.to_file self env runsdir qualikizdir false mp =
          Except.ok ⟨true, false, false, ToFileResult.skipped⟩) := by
  rw [to_file_exists_no_overwrite self env runsdir qualikizdir mp hq hr hex]
  constructor
  · intro hresp
    have hb : (env.resp = "" || env.resp = "Y" || env.resp = "y") = true := by
      rcases hresp with h | h | h <;> simp [h]
    rw [if_pos hb]
    by_cases htpl : self.parameters_script ≠ "" ∨ env.templateExists = true
    · right
      exact ⟨_, to_file_body_ok self env qualikizdir _ true true mp htpl⟩
    · left
      push_neg at htpl
      have hcond : (self.parameters_script = "" && !env.templateExists) = true := by
        simp [htpl.1, htpl.2]
      simp [EmptyJob.to_file_body, hcond]
  · intro hresp
    have hb : (env.resp = "" || env.resp = "Y" || env.resp = "y") = false := by
      push_neg at hresp
      simp [hresp.1, hresp.2.1, hresp.2.2]
    rw [if_neg (by simp [hb])]

/-- A job whose input-generation script is empty (template is used). -/
def cJob : EmptyJob :=
  { binary_path := "/root/QuaLiKiz"
    parameters_script := ""
    name := "job1"
    batch := "BATCH" }

/-- A job carrying its own input-generation script. -/
def cJobScript : EmptyJob :=
  { cJob with parameters_script := "from qualikiz import *", name := "job2" }

/-- Fresh target: the job directory does not exist yet. -/
def cEnvFresh : FsEnv :=
  { runsdirIsDir := true
    jobPathExists := false
    resp := ""
    binaryExists := true
    templateExists := true
    templateContent := "TPLCONTENT" }

/-- Existing target, operator declines the overwrite prompt. -/
def cEnvDecline : FsEnv := { cEnvFresh with jobPathExists := true, resp := "n" }

/-- Existing target, operator confirms with `y`. -/
def cEnvAccept : FsEnv := { cEnvFresh with jobPathExists := true, resp := "y" }

theorem to_file_decline_skips_witness :
    (EmptyJob.to_file cJob cEnvAccept "/root/runs" "/root/tools/qualikiz" false true =
        Except.error (PyError.fileNotFound
          (os_path_join "/root/tools/qualikiz" "parameters_template.py")) ∨
      ∃ layout, EmptyJob.to_file cJob cEnvAccept "/root/runs" "/root/tools/qualikiz"
          false true =
        Except.ok ⟨true, true, !cEnvAccept.binaryExists,
          ToFileResult.written layout⟩) ∧
    EmptyJob.to_file cJob cEnvDecline "/root/runs" "/root/tools/qualikiz" false true =
      Except.ok ⟨true, false, false, ToFileResult.skipped⟩ :=
  ⟨(to_file_decline_skips cJob cEnvAccept "/root/runs" "/root/tools/qualikiz" true
      (by decide) (by decide) (by decide)).1 (Or.inr (Or.inr rfl)),
   (to_file_decline_skips cJob cEnvDecline "/root/runs" "/root/tools/qualikiz" true
      (by decide) (by decide) (by decide)).2 (by decide)⟩

/-! ## Claim C8 -/

/-- C8: in a successful materialization, the content written to
`parameters.py` is the job's own script verbatim when that script is
non-empty, and the content of `toolsdir/parameters_template.py` when it is
empty. -/
theorem to_file_parameters_script_source (self : EmptyJob) (env : FsEnv)
    (runsdir qualikizdir : String) (ov mp : Bool)
    (hq : os_path_isabs qualikizdir = true) (hr : os_path_isabs runsdir = true)
    (hfresh : env.jobPathExists = false)
    (hok : self.parameters_script ≠ "" ∨ env.templateExists = true) :
    ∃ layout, EmptyJob.to_file self env runsdir qualikizdir ov mp =
        Except.ok ⟨false, false, !env.binaryExists, ToFileResult.written layout⟩ ∧
      layout.parametersContent =
        (if self.parameters_script = "" then env.templateContent
          else self.parameters_script) := by
  rw [to_file_fresh self env runsdir qualikizdir ov mp hq hr hfresh]
  exact ⟨_, to_file_body_ok self env qualikizdir _ false false mp hok, rfl⟩

theorem to_file_parameters_script_source_witness :
    (∃ layout, EmptyJob.to_file cJob cEnvFresh "/root/runs" "/root/tools/qualikiz"
          false true =
        Except.ok ⟨false, false, !cEnvFresh.binaryExists,
          ToFileResult.written layout⟩ ∧
      layout.parametersContent =
        (if cJob.parameters_script = "" then cEnvFresh.templateContent
          else cJob.parameters_script)) ∧
    (∃ layout, EmptyJob.to_file cJobScript cEnvFresh "/root/runs"
          "/root/tools/qualikiz" false true =
        Except.ok ⟨false, false, !cEnvFresh.binaryExists,
          ToFileResult.written layout⟩ ∧
      layout.parametersContent =
        (if cJobScript.parameters_script = "" then cEnvFresh.templateContent
          else cJobScript.parameters_script)) :=
  ⟨to_file_parameters_script_source cJob cEnvFresh "/root/runs" "/root/tools/qualikiz"
      false true (by decide) (by decide) (by decide) (Or.inr rfl),
   to_file_parameters_script_source cJobScript cEnvFresh "/root/runs"
      "/root/tools/qualikiz" false true (by decide) (by decide) (by decide)
      (Or.inl (by decide))⟩

/-! ## Claim C9 -/

/-- C9: a job materialized with the snapshot option (`metapickle=True`)
records a snapshot in `jobdata.pkl`, and deserializing that snapshot yields a
job whose name and binary path equal those of the original. -/
theorem to_file_snapshot_roundtrip (self : EmptyJob) (env : FsEnv)
    (runsdir qualikizdir : String) (ov : Bool)
    (hq : os_path_isabs qualikizdir = true) (hr : os_path_isabs runsdir = true)
    (hfresh : env.jobPathExists = false)
    (hok : self.parameters_script ≠ "" ∨ env.templateExists = true) :
    ∃ layout, EmptyJob.to_file self env runsdir qualikizdir ov true =
        Except.ok ⟨false, false, !env.binaryExists, ToFileResult.written layout⟩ ∧
      ∃ d, layout.jobdata = some d ∧
        ∃ jd, pickle_load d = some jd ∧
          jd.name = self.name ∧ jd.binary_path = self.binary_path := by
  rw [to_file_fresh self env runsdir qualikizdir ov true hq hr hfresh]
  exact ⟨_, to_file_body_ok self env qualikizdir _ false false true hok,
    pickle_dump self, rfl, self, rfl, rfl, rfl⟩

theorem to_file_snapshot_roundtrip_witness :
    ∃ layout, EmptyJob.to_file cJob cEnvFresh "/root/runs" "/root/tools/qualikiz"
        false true =
      Except.ok ⟨false, false, !cEnvFresh.binaryExists,
        ToFileResult.written layout⟩ ∧
      ∃ d, layout.jobdata = some d ∧
        ∃ jd, pickle_load d = some jd ∧
          jd.name = cJob.name ∧ jd.binary_path = cJob.binary_path :=
  to_file_snapshot_roundtrip cJob cEnvFresh "/root/runs" "/root/tools/qualikiz"
    false (by decide) (by decide) (by decide) (Or.inr rfl)

/-! ## Claim C2 -/

/-- Filesystem in which `parameters_template.py` is missing, so the
materialization of a job with an empty script raises `FileNotFoundError`. -/
def cEnvNoTemplate : FsEnv := { cEnvFresh with templateExists := false }

/-- A registry with two jobs, both of which need the (missing) template. -/
def cRun : Run :=
  { jobs := [("job1", cJob), ("job2", { cJob with name := "job2" })]
    rootdir := "/root"
    qualikizdir := "/root/tools/qualikiz"
    runsdir := "/root/runs" }

/-- C2 counterexample: with two jobs and a failure in the first one's
materialization, `Run.to_file` attempts only the first entry — `job2` is
never attempted, refuting the claim that every entry is attempted. -/
theorem Run_to_file_not_all_attempted :
    Run.to_file cRun cEnvNoTemplate false =
      (["job1"],
        Except.error (PyError.fileNotFound
          "/root/tools/qualikiz/parameters_template.py")) ∧
    (Run.to_file cRun cEnvNoTemplate false).1 ≠ cRun.jobs.map Prod.fst := by
  decide

theorem to_file_go_stops_at_failure (env : FsEnv) (runsdir qualikizdir : String)
    (ov : Bool) :
    ∀ (l : List (String × EmptyJob)) (i : Nat) (hi : i < l.length) (e : PyError),
      ((l.get ⟨i, hi⟩).2).to_file env runsdir qualikizdir ov true =
        Except.error e →
      (∀ j (hj : j < i),
          ∃ out, ((l.get ⟨j, Nat.lt_trans hj hi⟩).2).to_file env runsdir
            qualikizdir ov true = Except.ok out) →
      Run.to_file_go env runsdir qualikizdir ov l =
        ((l.take (i + 1)).map Prod.fst, Except.error e) := by
  intro l
  induction l with
  | nil => intro i hi; exact absurd hi (Nat.not_lt_zero i)
  | cons hd rest ih =>
    intro i hi e hfail hpre
    obtain ⟨name, job⟩ := hd
    cases i with
    | zero =>
      simp only [List.get] at hfail
      simp [Run.to_file_go, hfail]
    | succ j =>
      obtain ⟨out, hout⟩ := hpre 0 (Nat.succ_pos j)
      simp only [List.get] at hout
      have hj : j < rest.length := Nat.lt_of_succ_lt_succ hi
      have hrest := ih j hj e hfail fun k hk =>
        hpre (k + 1) (Nat.succ_lt_succ hk)
      simp [Run.to_file_go, hout, hrest]

/-- C2 amended: a failure raised while materializing one job propagates out
of `Run.to_file` (there is no per-job isolation there), so exactly the
entries up to and including the first failing one are attempted and the
later entries are not. -/
theorem Run_to_file_stops_at_first_failure (run : Run) (env : FsEnv) (ov : Bool)
    (i : Nat) (hi : i < run.jobs.length) (e : PyError)
    (hfail : ((run.jobs.get ⟨i, hi⟩).2).to_file env run.runsdir run.qualikizdir
      ov true = Except.error e)
    (hpre : ∀ j (hj : j < i),
        ∃ out, ((run.jobs.get ⟨j, Nat.lt_trans hj hi⟩).2).to_file env run.runsdir
          run.qualikizdir ov true = Except.ok out) :
    Run.to_file run env ov =
      ((run.jobs.take (i + 1)).map Prod.fst, Except.error e) :=
  to_file_go_stops_at_failure env run.runsdir run.qualikizdir ov run.jobs i hi e
    hfail hpre

theorem Run_to_file_stops_at_first_failure_witness :
    Run.to_file cRun cEnvNoTemplate false =
      ((cRun.jobs.take 1).map Prod.fst,
        Except.error (PyError.fileNotFound
          "/root/tools/qualikiz/parameters_template.py")) :=
  Run_to_file_stops_at_first_failure cRun cEnvNoTemplate false 0 (by decide)
    (PyError.fileNotFound "/root/tools/qualikiz/parameters_template.py")
    (by decide) (fun j hj => absurd hj (Nat.not_lt_zero j))

/-! ## Claim C3 -/

/-- A submission environment whose scheduler answers with a job id. -/
def cRunJobEnv : RunJobEnv :=
  { inputBinaryExists := true
    gitDescribeOutput := "v2.4.0-42-g1abc\n"
    sbatchOutput := "Submitted batch job 12345"
    now := "2016-05-12 10:00:00.000001"
    priorMetadata := none }

/-- What `run_job` produces in that environment. -/
def cRunJobOut : RunJobOut :=
  { warnedInput := false
    metadataFile :=
      [["jobnumber", "12345"],
       ["submittime", "2016-05-12 10:00:00.000001"],
       ["qualikiz_version", "v2.4.0-42-g1abc"]]
    printed := ["12345"]
    returned := none }

/-- C3 counterexample: on a successful submission the parsed job id is
`12345`, yet `run_job` does not report it to the caller as its result — the
function only prints it and its Python return value is `None`. -/
theorem run_job_does_not_return_jobid :
    (pySplit cRunJobEnv.sbatchOutput).getLast? = some "12345" ∧
    run_job cRunJobEnv "/root/runs/job1" = Except.ok cRunJobOut ∧
    cRunJobOut.returned ≠ some "12345" := by
  decide

/-- C3 amended: for every job directory on which submission succeeds,
`run_job` prints the parsed scheduler job identifier to standard output; its
result (Python return value) is `None`, not the identifier. -/
theorem run_job_prints_jobid (env : RunJobEnv) (job_folder : String) (j : String)
    (h : (pySplit env.sbatchOutput).getLast? = some j) :
    ∃ out, run_job env job_folder = Except.ok out ∧
      out.printed = [j] ∧ out.returned = none := by
  unfold run_job
  rw [h]
  exact ⟨_, rfl, rfl, rfl⟩

theorem run_job_prints_jobid_witness :
    ∃ out, run_job cRunJobEnv "/root/runs/job1" = Except.ok out ∧
      out.printed = ["12345"] ∧ out.returned = none :=
  run_job_prints_jobid cRunJobEnv "/root/runs/job1" "12345" (by decide)

/-! ## Claim C7 -/

/-- C7: `run_job` parses the last whitespace-delimited token of the scheduler
output as the job identifier and writes the metadata file as two-column rows
in the order `jobnumber`, `submittime`, `qualikiz_version`, with no header
row, and with content independent of any prior metadata file (mode `w`
truncates: overwritten, not appended). -/
theorem run_job_parses_and_writes_metadata (env : RunJobEnv) (job_folder : String)
    (j : String) (h : (pySplit env.sbatchOutput).getLast? = some j) :
    (∃ out, run_job env job_folder = Except.ok out ∧
        out.metadataFile =
          [["jobnumber", j],
           ["submittime", env.now],
           ["qualikiz_version", pyStrip env.gitDescribeOutput]]) ∧
    (∀ prior, run_job { env with priorMetadata := prior } job_folder =
        run_job env job_folder) := by
  constructor
  · unfold run_job
    rw [h]
    exact ⟨_, rfl, rfl⟩
  · intro prior
    rfl

theorem run_job_parses_and_writes_metadata_witness :
    (∃ out, run_job cRunJobEnv "/root/runs/job1" = Except.ok out ∧
        out.metadataFile =
          [["jobnumber", "12345"],
           ["submittime", "2016-05-12 10:00:00.000001"],
           ["qualikiz_version", "v2.4.0-42-g1abc"]]) ∧
    (∀ prior, run_job { cRunJobEnv with priorMetadata := prior } "/root/runs/job1" =
        run_job cRunJobEnv "/root/runs/job1") := by
  have h := run_job_parses_and_writes_metadata cRunJobEnv "/root/runs/job1" "12345"
    (by decide)
  refine ⟨?_, h.2⟩
  obtain ⟨out, hout, hmeta⟩ := h.1
  refine ⟨out, hout, ?_⟩
  rw [hmeta]
  decide

end QLK
